import Mathlib

/-!
Shallow embedding of the Agent Session and Authentication Orchestration layer
of the agentforce-ui repository (file src/chat/agentforce.ts, helpers from
src/chat/config.ts), together with theorems settling the specification claims.

Modelling conventions:
- JavaScript exceptions are modelled with Except; a thrown axios error keeps
  its optional code and optional response (status, statusText), a thrown plain
  Error keeps its message, and a thrown non-Error value is a separate case.
- JavaScript string falsiness (missing property or empty string) is modelled
  on Option String.
- The outcome of each external interaction (OAuth token POST, AppLink broker
  lookup, session POST, session DELETE, streaming POST) is an input of the
  model, and every function returns the list of HTTP/broker calls it issued,
  so that claims about call counts and call ordering are statable.
- The numeric sequenceId is modelled as a rational number or NaN, which is
  enough to express the comparisons the code performs (sequenceId < 0 is
  false for NaN, as in IEEE semantics).
- The credential cache (the "use cache" on getToken) is not modelled: every
  credential resolution is a cold fetch that issues its call. This only
  affects how many auth calls appear in a trace, which no claim depends on.
  The session cache (the "use cache" plus cacheTag("session") on getSession,
  and revalidateTag("session") in endSession) is modelled explicitly as an
  Option-valued cache slot, since several claims are about it.
-/

namespace Agentforce

/-- An axios error response: HTTP status and status text. -/
structure AxiosResp where
  status : Nat
  statusText : String
deriving Repr, DecidableEq

/-- A thrown JavaScript value: an axios error (with optional code such as
ECONNABORTED and optional response), a plain Error with a message, or a
thrown value that is not an Error instance. -/
inductive Err where
  | axiosErr (message : String) (code : Option String) (resp : Option AxiosResp)
  | plainErr (msg : String)
  | nonError
deriving Repr, DecidableEq

/-- Models axios.isAxiosError. -/
def Err.isAxios : Err → Bool
  | .axiosErr _ _ _ => true
  | _ => false

/-- Models error.response?.status. -/
def respStatus : Option AxiosResp → Option Nat
  | some r => some r.status
  | none => none

/-- Models error.response && error.response.status >= 500. -/
def respAtLeast500 : Option AxiosResp → Bool
  | some r => decide (500 ≤ r.status)
  | none => false

/-- Models the template fallback error.response?.status || 'Network error'
(a missing response or status 0 is falsy). -/
def statusOrNetwork : Option AxiosResp → String
  | some r => if r.status = 0 then "Network error" else toString r.status
  | none => "Network error"

/-- Models the template fallback error.response?.statusText || 'Network error'
(a missing response or empty statusText is falsy). -/
def statusTextOrNetwork : Option AxiosResp → String
  | some r => if r.statusText.isEmpty then "Network error" else r.statusText
  | none => "Network error"

/-- JavaScript falsiness for an optional string property: absent or empty. -/
def jsFalsyStr : Option String → Bool
  | none => true
  | some s => s.isEmpty

/-- Models the JavaScript expression a || b on optional strings. -/
def jsOrStr (a b : Option String) : Option String :=
  if jsFalsyStr a then b else a

/-- The string an optional value renders to inside a template literal
(a missing value renders as the text undefined). -/
def jsTemplate : Option String → String
  | some s => s
  | none => "undefined"

/-- Extracts the string of a non-falsy optional (only used after a falsiness
check has passed). -/
def optStr : Option String → String
  | some s => s
  | none => ""

/-- One network or broker interaction, recorded with the URL or name used. -/
inductive HttpCall where
  | authPost (url : String)
  | brokerCall (connectionName : String)
  | sessionPost (url : String)
  | sessionDelete (url : String)
  | streamPost (url : String)
deriving Repr, DecidableEq

/-- Bearer credentials produced by either provider. -/
structure AuthCredentials where
  accessToken : String
  apiInstanceUrl : String
deriving Repr, DecidableEq

/-- Outcome of one run through retryOperation: the value or last error, the
number of times the operation was invoked, the backoff delays waited (in
milliseconds, in order), and the concatenated calls of all attempts. -/
structure RunResult (α : Type) where
  result : Except Err α
  attempts : Nat
  delays : List Nat
  calls : List HttpCall

/-- The guard in retryOperation that re-raises immediately: the caught error
is an axios error and error.response?.status is truthy and below 500. -/
def nonRetryableStatus : Err → Bool
  | .axiosErr _ _ (some r) => decide (r.status ≠ 0) && decide (r.status < 500)
  | _ => false

/-- The loop of retryOperation. fuel is the number of retries still allowed
(maxRetries - attempt); attempt is the zero-based attempt index. On failure
that is not a non-retryable 4xx and with fuel left, it waits
delayMs * (attempt + 1) and runs the operation again; when fuel runs out the
last error propagates. -/
def retryAux {α : Type} (op : Nat → Except Err α × List HttpCall) (delayMs : Nat) :
    Nat → Nat → RunResult α
  | 0, attempt =>
    match op attempt with
    | (.ok v, calls) => ⟨.ok v, 1, [], calls⟩
    | (.error e, calls) => ⟨.error e, 1, [], calls⟩
  | fuel + 1, attempt =>
    match op attempt with
    | (.ok v, calls) => ⟨.ok v, 1, [], calls⟩
    | (.error e, calls) =>
      if nonRetryableStatus e then ⟨.error e, 1, [], calls⟩
      else
        let rest := retryAux op delayMs fuel (attempt + 1)
        ⟨rest.result, rest.attempts + 1, delayMs * (attempt + 1) :: rest.delays,
          calls ++ rest.calls⟩

/-- Models retryOperation(operation, maxRetries, delayMs). The operation is
indexed by the attempt number so that each attempt can have a distinct
outcome. -/
def retryOperation {α : Type} (op : Nat → Except Err α × List HttpCall)
    (maxRetries : Nat) (delayMs : Nat) : RunResult α :=
  retryAux op delayMs maxRetries 0

/-- The OAuth token endpoint response body, with optional fields as the code
checks them. -/
structure TokenResponse where
  access_token : Option String
  api_instance_url : Option String
deriving Repr, DecidableEq

/-- The catch block of getToken: classifies the caught error into a plain
Error with a human readable message. A non-axios error (including the
locally thrown invalid-response Error) maps to the generic connect failure. -/
def authCatch : Err → Err
  | .axiosErr _ code resp =>
    if code = some "ECONNABORTED" then
      .plainErr "Authentication timeout: Unable to connect to Salesforce"
    else if respStatus resp = some 401 then
      .plainErr "Authentication failed: Invalid client credentials"
    else if respAtLeast500 resp then
      .plainErr "Authentication failed: Salesforce service temporarily unavailable"
    else
      .plainErr ("Authentication failed: " ++ statusOrNetwork resp)
  | _ => .plainErr "Authentication failed: Unable to connect to Salesforce"

/-- Models getToken (direct OAuth client-credentials strategy). The input is
the outcome of the form-encoded POST to the auth endpoint; the call is always
issued. A response missing access_token or api_instance_url raises a local
Error that the functions own catch turns into the generic connect failure. -/
def getToken (authUrl : String) (resp : Except Err TokenResponse) :
    Except Err AuthCredentials × List HttpCall :=
  match resp with
  | .error e => (.error (authCatch e), [.authPost authUrl])
  | .ok data =>
    if jsFalsyStr data.access_token || jsFalsyStr data.api_instance_url then
      (.error (authCatch (.plainErr
        "Invalid authentication response: missing access token or API instance URL")),
        [.authPost authUrl])
    else
      (.ok ⟨optStr data.access_token, optStr data.api_instance_url⟩,
        [.authPost authUrl])

/-- The AppLink broker authorization object, with the fields the code reads. -/
structure AppLinkAuth where
  accessToken : Option String
  domainUrl : Option String
deriving Repr, DecidableEq

/-- The catch block of getTokenFromAppLink: an Error instance is re-wrapped
with its message appended; any other thrown value maps to the generic
retrieve failure. -/
def appLinkCatch : Err → Err
  | .plainErr m => .plainErr ("AppLink authentication failed: " ++ m)
  | .axiosErr m _ _ => .plainErr ("AppLink authentication failed: " ++ m)
  | .nonError => .plainErr "AppLink authentication failed: Unable to retrieve credentials"

/-- Models getTokenFromAppLink (delegated strategy). The input is the outcome
of the broker lookup by connection name. On success the api instance URL is
the fixed canonical host, and any domainUrl the broker returned is ignored. -/
def getTokenFromAppLink (connectionName : String) (auth : Except Err AppLinkAuth) :
    Except Err AuthCredentials × List HttpCall :=
  match auth with
  | .error e => (.error (appLinkCatch e), [.brokerCall connectionName])
  | .ok a =>
    if jsFalsyStr a.accessToken then
      (.error (appLinkCatch (.plainErr
        "Invalid AppLink authorization response: missing access token")),
        [.brokerCall connectionName])
    else
      (.ok ⟨optStr a.accessToken, "https://api.salesforce.com"⟩,
        [.brokerCall connectionName])

/-- The authentication mode selecting the credential provider. -/
inductive AuthMode where
  | direct
  | applink
deriving Repr, DecidableEq

/-- The environment a credential resolution runs against: the auth endpoint
URL and token response for direct mode, the connection name and broker
outcome for applink mode. -/
structure CredEnv where
  authUrl : String
  tokenResp : Except Err TokenResponse
  connectionName : String
  appLinkAuth : Except Err AppLinkAuth
deriving Repr

/-- Models getCredentials(mode). -/
def getCredentials (mode : AuthMode) (env : CredEnv) :
    Except Err AuthCredentials × List HttpCall :=
  match mode with
  | .applink => getTokenFromAppLink env.connectionName env.appLinkAuth
  | .direct => getToken env.authUrl env.tokenResp

example : getToken "https://t.example/services/oauth2/token"
    (.ok ⟨some "tok", some "https://inst.example"⟩) =
    (.ok ⟨"tok", "https://inst.example"⟩,
      [.authPost "https://t.example/services/oauth2/token"]) := rfl

example : (getToken "u" (.ok ⟨none, some "https://inst.example"⟩)).1 =
    .error (.plainErr "Authentication failed: Unable to connect to Salesforce") := rfl

example : (getTokenFromAppLink "conn" (.ok ⟨some "tok", some "https://d.example"⟩)).1 =
    .ok ⟨"tok", "https://api.salesforce.com"⟩ := rfl

/-- The session creation response body, with the optional field the code
checks. -/
structure SessionResp where
  sessionId : Option String
deriving Repr, DecidableEq

/-- The URL of the session creation POST:
apiInstanceUrl/einstein/ai-agent/v1/agents/agentId/sessions. -/
def sessionPostUrl (apiInstanceUrl targetAgentId : String) : String :=
  apiInstanceUrl ++ "/einstein/ai-agent/v1/agents/" ++ targetAgentId ++ "/sessions"

/-- The catch block inside the retried body of newSession: an axios error is
classified into a plain Error with a session-creation message; any non-axios
error is re-thrown unchanged. -/
def sessionCatch : Err → Err
  | .axiosErr _m code resp =>
    if code = some "ECONNABORTED" then
      .plainErr "Session creation timeout: Agentforce service is taking too long to respond"
    else if respStatus resp = some 401 then
      .plainErr "Session creation failed: Authentication expired"
    else if respStatus resp = some 403 then
      .plainErr "Session creation failed: Access denied to Agentforce agent"
    else if respStatus resp = some 404 then
      .plainErr "Session creation failed: Agentforce agent not found"
    else if respAtLeast500 resp then
      .plainErr "Session creation failed: Agentforce service temporarily unavailable"
    else
      .plainErr ("Session creation failed: " ++ statusTextOrNetwork resp)
  | .plainErr m => .plainErr m
  | .nonError => .nonError

/-- The environment one attempt of the retried newSession body runs against:
the credential environment, the generated random UUID, and the outcome of the
session creation POST (consulted only when the POST is reached). -/
structure AttemptEnv where
  credEnv : CredEnv
  uuid : String
  postResult : Except Err SessionResp

/-- One attempt of the retried body of newSession: resolve credentials,
determine the target agent id (argument, else configured default, absence of
both throws a configuration Error), POST the session, require a session id in
the response. Every error leaves through the catch modelled by sessionCatch. -/
def newSessionBody (mode : AuthMode) (agentArg configAgentId : Option String)
    (env : AttemptEnv) : Except Err SessionResp × List HttpCall :=
  match getCredentials mode env.credEnv with
  | (.error e, calls) => (.error (sessionCatch e), calls)
  | (.ok cred, calls) =>
    let targetAgentId := jsOrStr agentArg configAgentId
    if jsFalsyStr targetAgentId then
      (.error (sessionCatch (.plainErr
        "No agent ID provided and no default agent configured")), calls)
    else
      let url := sessionPostUrl cred.apiInstanceUrl (optStr targetAgentId)
      match env.postResult with
      | .error e => (.error (sessionCatch e), calls ++ [.sessionPost url])
      | .ok data =>
        if jsFalsyStr data.sessionId then
          (.error (sessionCatch (.plainErr
            "Invalid session response: missing session ID")),
            calls ++ [.sessionPost url])
        else
          (.ok data, calls ++ [.sessionPost url])

/-- Models newSession(agentId, authMode): the body wrapped in
retryOperation(op, 2, 1500). -/
def newSession (mode : AuthMode) (agentArg configAgentId : Option String)
    (envs : Nat → AttemptEnv) : RunResult SessionResp :=
  retryOperation (fun attempt => newSessionBody mode agentArg configAgentId (envs attempt))
    2 1500

/-- Models getSession(agentId, authMode) with its session cache slot: a cache
hit returns the cached session with no calls; a miss runs newSession and, on
success, stores the session under the session tag. A failed resolution is not
cached. Returns the result, the cache slot afterwards, and the calls made. -/
def getSession (mode : AuthMode) (agentArg configAgentId : Option String)
    (envs : Nat → AttemptEnv) (cache : Option SessionResp) :
    Except Err SessionResp × Option SessionResp × List HttpCall :=
  match cache with
  | some s => (.ok s, some s, [])
  | none =>
    let run := newSession mode agentArg configAgentId envs
    match run.result with
    | .ok s => (.ok s, some s, run.calls)
    | .error e => (.error e, none, run.calls)

/-- The DELETE response body, kept opaque. -/
structure DeleteData where
  body : String
deriving Repr, DecidableEq

/-- The URL of the session DELETE:
apiInstanceUrl/einstein/ai-agent/v1/sessions/sessionId (the path comes from
agentConfig.getSessionEndpoint). -/
def sessionDeleteUrl (apiInstanceUrl sessionId : String) : String :=
  apiInstanceUrl ++ "/einstein/ai-agent/v1/sessions/" ++ sessionId

/-- The environment endSession runs against: its own credential resolution,
the attempt environments for the session resolution it may trigger, the
configured default agent id, and the outcome of the DELETE request. -/
structure EndEnv where
  credEnv : CredEnv
  sessionEnvs : Nat → AttemptEnv
  configAgentId : Option String
  deleteResult : Except Err DeleteData

/-- The outcome of endSession: the value returned to the caller, the session
cache slot afterwards, and the calls made. -/
structure EndOutcome where
  result : Except Err (Option DeleteData)
  cacheAfter : Option SessionResp
  calls : List HttpCall

/-- The try block of endSession: resolve credentials, resolve the session via
getSession (with no explicit agent id), DELETE the session URL, and on success
revalidate the session tag (clear the cache slot) and return the data. Any
failure leaves the block with the cache slot as the failed step left it. -/
def endSessionTry (mode : AuthMode) (env : EndEnv) (cache : Option SessionResp) :
    Except Err DeleteData × Option SessionResp × List HttpCall :=
  match getCredentials mode env.credEnv with
  | (.error e, calls) => (.error e, cache, calls)
  | (.ok cred, calls) =>
    match getSession mode none env.configAgentId env.sessionEnvs cache with
    | (.error e, cache2, calls2) => (.error e, cache2, calls ++ calls2)
    | (.ok s, cache2, calls2) =>
      let url := sessionDeleteUrl cred.apiInstanceUrl (jsTemplate s.sessionId)
      match env.deleteResult with
      | .error e => (.error e, cache2, calls ++ calls2 ++ [.sessionDelete url])
      | .ok d => (.ok d, none, calls ++ calls2 ++ [.sessionDelete url])

/-- Models endSession(authMode): the try block with a catch that swallows
every failure and returns null (modelled as ok none). -/
def endSession (mode : AuthMode) (env : EndEnv) (cache : Option SessionResp) :
    EndOutcome :=
  match endSessionTry mode env cache with
  | (.ok d, cacheAfter, calls) => ⟨.ok (some d), cacheAfter, calls⟩
  | (.error _, cacheAfter, calls) => ⟨.ok none, cacheAfter, calls⟩

/-- A JavaScript number as far as the validation in sendStreamingMessage
observes it: a rational value or NaN. -/
inductive JSNum where
  | num (q : Rat)
  | nan
deriving Repr, DecidableEq

/-- Models the comparison sequenceId < 0 (false for NaN, as in IEEE
comparison semantics). -/
def jsNumNeg : JSNum → Bool
  | .num q => decide (q < 0)
  | .nan => false

/-- The streaming POST response, kept opaque. -/
structure StreamData where
  chunk : String
deriving Repr, DecidableEq

/-- The URL of the streaming message POST:
apiInstanceUrl/einstein/ai-agent/v1/sessions/sessionId/messages/stream (the
path comes from agentConfig.getStreamingEndpoint). -/
def streamPostUrl (apiInstanceUrl sessionId : String) : String :=
  apiInstanceUrl ++ "/einstein/ai-agent/v1/sessions/" ++ sessionId ++ "/messages/stream"

/-- Models the validation check (bang)text || text.trim().length === 0 on a
string: the string is falsy exactly when it is empty, and it trims to length
zero exactly when every one of its characters is whitespace, so the combined
check holds exactly when all characters are whitespace. Stated over the
character list so that concrete instances evaluate. -/
def trimmedEmpty (s : String) : Bool := s.data.all Char.isWhitespace

/-- The catch block of sendStreamingMessage: an axios error is classified
into a plain Error with a dispatch message; any non-axios error (validation
or session resolution failures included) is re-thrown unchanged. -/
def streamCatch : Err → Err
  | .axiosErr _m code resp =>
    if code = some "ECONNABORTED" then
      .plainErr "Request timeout: Agentforce is taking too long to respond"
    else if respStatus resp = some 401 then
      .plainErr "Authentication expired: Please refresh and try again"
    else if respStatus resp = some 403 then
      .plainErr "Access denied: You don't have permission to use this agent"
    else if respStatus resp = some 404 then
      .plainErr "Session not found: Please refresh and try again"
    else if respStatus resp = some 429 then
      .plainErr "Rate limit exceeded: Please wait a moment and try again"
    else if respAtLeast500 resp then
      .plainErr "Agentforce service is temporarily unavailable. Please try again in a few moments"
    else
      .plainErr ("Failed to send message: " ++ statusTextOrNetwork resp)
  | .plainErr m => .plainErr m
  | .nonError => .nonError

/-- The environment sendStreamingMessage runs against. -/
structure SendEnv where
  credEnv : CredEnv
  sessionEnvs : Nat → AttemptEnv
  configAgentId : Option String
  streamResult : Except Err StreamData

/-- Models sendStreamingMessage(text, sequenceId, agentId, authMode).
Validation runs first, inside the try: a text that trims to empty (the check
is text falsy or trimmed length zero, which coincide on strings) throws the
empty-message Error; then a sequenceId that is not a number or is below zero
throws the invalid-sequence Error (in the model every sequenceId is a number,
so only the comparison matters; NaN compares false). Only after validation
are credentials and the session resolved and the streaming POST issued. All
errors leave through the catch modelled by streamCatch, which re-throws the
plain validation errors unchanged. -/
def sendStreamingMessage (text : String) (sequenceId : JSNum)
    (agentArg : Option String) (mode : AuthMode) (env : SendEnv)
    (cache : Option SessionResp) : Except Err StreamData × List HttpCall :=
  if trimmedEmpty text then
    (.error (streamCatch (.plainErr "Message text cannot be empty")), [])
  else if jsNumNeg sequenceId then
    (.error (streamCatch (.plainErr "Invalid sequence ID")), [])
  else
    match getCredentials mode env.credEnv with
    | (.error e, calls) => (.error (streamCatch e), calls)
    | (.ok cred, calls) =>
      match getSession mode agentArg env.configAgentId env.sessionEnvs cache with
      | (.error e, _, calls2) => (.error (streamCatch e), calls ++ calls2)
      | (.ok s, _, calls2) =>
        let url := streamPostUrl cred.apiInstanceUrl (jsTemplate s.sessionId)
        match env.streamResult with
        | .error e => (.error (streamCatch e), calls ++ calls2 ++ [.streamPost url])
        | .ok d => (.ok d, calls ++ calls2 ++ [.streamPost url])

/-! Concrete fixtures used by closed theorems and witnesses. -/

/-- A concrete auth endpoint URL. -/
def authUrl0 : String := "https://org.example/services/oauth2/token"

/-- A concrete healthy OAuth token response. -/
def tokenOk : TokenResponse := ⟨some "tok-1", some "https://inst.example"⟩

/-- A concrete credential environment in which both providers succeed. -/
def credEnvOk : CredEnv :=
  ⟨authUrl0, .ok tokenOk, "jwt-conn", .ok ⟨some "tok-2", some "https://dom.example"⟩⟩

/-- The credentials direct mode resolves from credEnvOk. -/
def cred0 : AuthCredentials := ⟨"tok-1", "https://inst.example"⟩

/-- A concrete cached session. -/
def sess0 : SessionResp := ⟨some "sess-0"⟩

/-- A concrete freshly created session. -/
def sessNew : SessionResp := ⟨some "sess-new"⟩

/-- A concrete axios 401 error. -/
def err401 : Err :=
  .axiosErr "Request failed with status code 401" none (some ⟨401, "Unauthorized"⟩)

/-- A concrete axios 404 error. -/
def err404 : Err :=
  .axiosErr "Request failed with status code 404" none (some ⟨404, "Not Found"⟩)

/-- A concrete axios 500 error. -/
def err500 : Err :=
  .axiosErr "Request failed with status code 500" none (some ⟨500, "Internal Server Error"⟩)

/-- A concrete axios 503 error. -/
def err503 : Err :=
  .axiosErr "Request failed with status code 503" none (some ⟨503, "Service Unavailable"⟩)

/-- An attempt environment whose session POST succeeds. -/
def attemptOk : AttemptEnv := ⟨credEnvOk, "uuid-0", .ok sessNew⟩

/-- An attempt environment whose session POST returns 401. -/
def attempt401 : AttemptEnv := ⟨credEnvOk, "uuid-0", .error err401⟩

/-- An attempt environment whose session POST returns 503. -/
def attempt503 : AttemptEnv := ⟨credEnvOk, "uuid-0", .error err503⟩

example : getCredentials .direct credEnvOk = (.ok cred0, [.authPost authUrl0]) := rfl

example : (newSession .direct (some "agent-1") none (fun _ => attempt401)).attempts = 3 := rfl

example : (newSession .direct (some "agent-1") none (fun _ => attempt503)).delays =
    [1500, 3000] := rfl

/-! Helper lemmas about the error classifiers and the retried body. -/

/-- A plain Error passes through the newSession catch unchanged. -/
theorem sessionCatch_plain (m : String) : sessionCatch (.plainErr m) = .plainErr m := rfl

/-- A plain Error is never hit by the 4xx fail-fast guard of retryOperation,
because axios.isAxiosError is false for it. -/
theorem nonRetryableStatus_plain (m : String) :
    nonRetryableStatus (.plainErr m) = false := rfl

/-- The newSession catch classifies a 5xx axios response (without timeout
code) as the temporarily-unavailable message. -/
theorem sessionCatch_5xx (m st : String) (s : Nat) (hs : 500 ≤ s) :
    sessionCatch (.axiosErr m none (some ⟨s, st⟩)) =
      .plainErr "Session creation failed: Agentforce service temporarily unavailable" := by
  have h401 : s ≠ 401 := by omega
  have h403 : s ≠ 403 := by omega
  have h404 : s ≠ 404 := by omega
  simp [sessionCatch, respStatus, respAtLeast500, h401, h403, h404, hs]

/-- The retried body, when credentials resolve, an agent id is available and
the POST fails, returns the classified POST error together with the
credential calls and the session POST call. -/
theorem newSessionBody_postErr (mode : AuthMode) (agentArg cfg : Option String)
    (credE : CredEnv) (cred : AuthCredentials) (ccalls : List HttpCall)
    (uuid : String) (e : Err)
    (hcred : getCredentials mode credE = (.ok cred, ccalls))
    (hagent : jsFalsyStr (jsOrStr agentArg cfg) = false) :
    newSessionBody mode agentArg cfg ⟨credE, uuid, .error e⟩ =
      (.error (sessionCatch e),
        ccalls ++ [.sessionPost
          (sessionPostUrl cred.apiInstanceUrl (optStr (jsOrStr agentArg cfg)))]) := by
  simp [newSessionBody, hcred, hagent]

/-- The retried body, when credentials resolve, an agent id is available and
the POST returns a response with a session id, succeeds with that response. -/
theorem newSessionBody_postOk (mode : AuthMode) (agentArg cfg : Option String)
    (credE : CredEnv) (cred : AuthCredentials) (ccalls : List HttpCall)
    (uuid : String) (data : SessionResp)
    (hcred : getCredentials mode credE = (.ok cred, ccalls))
    (hagent : jsFalsyStr (jsOrStr agentArg cfg) = false)
    (hdata : jsFalsyStr data.sessionId = false) :
    newSessionBody mode agentArg cfg ⟨credE, uuid, .ok data⟩ =
      (.ok data,
        ccalls ++ [.sessionPost
          (sessionPostUrl cred.apiInstanceUrl (optStr (jsOrStr agentArg cfg)))]) := by
  simp [newSessionBody, hcred, hagent, hdata]

/-- The retried body, when credentials resolve but neither an agent id
argument nor a configured default is available, throws the configuration
Error before any session POST. -/
theorem newSessionBody_noAgent (mode : AuthMode) (agentArg cfg : Option String)
    (env : AttemptEnv) (cred : AuthCredentials) (ccalls : List HttpCall)
    (hcred : getCredentials mode env.credEnv = (.ok cred, ccalls))
    (hagent : jsFalsyStr (jsOrStr agentArg cfg) = true) :
    newSessionBody mode agentArg cfg env =
      (.error (.plainErr "No agent ID provided and no default agent configured"),
        ccalls) := by
  simp [newSessionBody, hcred, hagent, sessionCatch]

/-- The retried body, when credential resolution throws, re-raises that error
through the catch without a session POST. -/
theorem newSessionBody_credErr (mode : AuthMode) (agentArg cfg : Option String)
    (credE : CredEnv) (e : Err) (ccalls : List HttpCall)
    (uuid : String) (post : Except Err SessionResp)
    (hcred : getCredentials mode credE = (.error e, ccalls)) :
    newSessionBody mode agentArg cfg ⟨credE, uuid, post⟩ =
      (.error (sessionCatch e), ccalls) := by
  simp [newSessionBody, hcred]

/-! Claim theorems. -/

/-- Claim C1, evaluated at the failing input: with credentials resolving, an
agent id given, and the session POST returning HTTP 401 on every attempt,
newSession does NOT fail after a single attempt. The catch inside the retried
body wraps the axios 401 into a plain Error, so the fail-fast guard of
retryOperation (which tests axios.isAxiosError) never fires: the operation is
invoked 3 times, backoff delays of 1500 ms and 3000 ms are waited, and only
then does the classified 401 error propagate. This contradicts the claim (and
the comment on the guard in the source) that 4xx-class failures are never
retried and are re-raised immediately with zero additional attempts. -/
theorem newSession_401_is_retried_three_times :
    (newSession .direct (some "agent-1") none (fun _ => attempt401)).attempts = 3 ∧
    (newSession .direct (some "agent-1") none (fun _ => attempt401)).delays =
      [1500, 3000] ∧
    (newSession .direct (some "agent-1") none (fun _ => attempt401)).result =
      .error (.plainErr "Session creation failed: Authentication expired") :=
  ⟨rfl, rfl, rfl⟩

/-- Claim C4: when the first two attempts of newSession fail with a 5xx
response and the third succeeds, the success value of the third attempt is
returned, exactly 3 attempts are made, and the backoff delays are
1500 ms then 3000 ms; and when all three attempts fail with retryable
failures, the error of the last attempt propagates (here the third attempt
fails with a status-less network error, whose distinct classification is the
one that comes out). -/
theorem newSession_5xx_retried_third_attempt_wins (mode : AuthMode)
    (agentArg cfg : Option String) (credE : CredEnv) (cred : AuthCredentials)
    (ccalls : List HttpCall) (u0 u1 u2 : String) (s1 s2 : Nat)
    (st1 st2 m1 m2 m3 : String) (resp : SessionResp)
    (hcred : getCredentials mode credE = (.ok cred, ccalls))
    (hagent : jsFalsyStr (jsOrStr agentArg cfg) = false)
    (hs1 : 500 ≤ s1) (hs2 : 500 ≤ s2)
    (hresp : jsFalsyStr resp.sessionId = false) :
    (let run := newSession mode agentArg cfg (fun n =>
        match n with
        | 0 => ⟨credE, u0, .error (.axiosErr m1 none (some ⟨s1, st1⟩))⟩
        | 1 => ⟨credE, u1, .error (.axiosErr m2 none (some ⟨s2, st2⟩))⟩
        | _ => ⟨credE, u2, .ok resp⟩)
     run.result = .ok resp ∧ run.attempts = 3 ∧ run.delays = [1500, 3000]) ∧
    (let run2 := newSession mode agentArg cfg (fun n =>
        match n with
        | 0 => ⟨credE, u0, .error (.axiosErr m1 none (some ⟨s1, st1⟩))⟩
        | 1 => ⟨credE, u1, .error (.axiosErr m2 none (some ⟨s2, st2⟩))⟩
        | _ => ⟨credE, u2, .error (.axiosErr m3 none none)⟩)
     run2.result = .error (.plainErr "Session creation failed: Network error") ∧
     run2.attempts = 3 ∧ run2.delays = [1500, 3000]) := by
  have h1 := newSessionBody_postErr mode agentArg cfg credE cred ccalls u0
    (.axiosErr m1 none (some ⟨s1, st1⟩)) hcred hagent
  have h2 := newSessionBody_postErr mode agentArg cfg credE cred ccalls u1
    (.axiosErr m2 none (some ⟨s2, st2⟩)) hcred hagent
  have h3 := newSessionBody_postOk mode agentArg cfg credE cred ccalls u2
    resp hcred hagent hresp
  have h4 := newSessionBody_postErr mode agentArg cfg credE cred ccalls u2
    (.axiosErr m3 none none) hcred hagent
  have c1 := sessionCatch_5xx m1 st1 s1 hs1
  have c2 := sessionCatch_5xx m2 st2 s2 hs2
  constructor
  · simp only [newSession, retryOperation, retryAux, h1, h2, h3, c1, c2,
      nonRetryableStatus_plain]
    norm_num
  · simp only [newSession, retryOperation, retryAux, h1, h2, h4, c1, c2,
      nonRetryableStatus_plain]
    constructor
    · simp [streamCatch, sessionCatch, statusTextOrNetwork, respStatus, respAtLeast500]
    · norm_num

/-- Witness for claim C4, at 503 on the first two attempts and a successful
third attempt, and 503, 503, then a status-less network error for the
all-fail half. -/
theorem newSession_5xx_retried_third_attempt_wins_witness :
    ((newSession .direct (some "agent-1") none (fun n =>
        match n with
        | 0 => ⟨credEnvOk, "u0", .error (.axiosErr "e1" none (some ⟨503, "Service Unavailable"⟩))⟩
        | 1 => ⟨credEnvOk, "u1", .error (.axiosErr "e2" none (some ⟨503, "Service Unavailable"⟩))⟩
        | _ => ⟨credEnvOk, "u2", .ok sessNew⟩)).result = .ok sessNew ∧
      (newSession .direct (some "agent-1") none (fun n =>
        match n with
        | 0 => ⟨credEnvOk, "u0", .error (.axiosErr "e1" none (some ⟨503, "Service Unavailable"⟩))⟩
        | 1 => ⟨credEnvOk, "u1", .error (.axiosErr "e2" none (some ⟨503, "Service Unavailable"⟩))⟩
        | _ => ⟨credEnvOk, "u2", .ok sessNew⟩)).attempts = 3 ∧
      (newSession .direct (some "agent-1") none (fun n =>
        match n with
        | 0 => ⟨credEnvOk, "u0", .error (.axiosErr "e1" none (some ⟨503, "Service Unavailable"⟩))⟩
        | 1 => ⟨credEnvOk, "u1", .error (.axiosErr "e2" none (some ⟨503, "Service Unavailable"⟩))⟩
        | _ => ⟨credEnvOk, "u2", .ok sessNew⟩)).delays = [1500, 3000]) ∧
    ((newSession .direct (some "agent-1") none (fun n =>
        match n with
        | 0 => ⟨credEnvOk, "u0", .error (.axiosErr "e1" none (some ⟨503, "Service Unavailable"⟩))⟩
        | 1 => ⟨credEnvOk, "u1", .error (.axiosErr "e2" none (some ⟨503, "Service Unavailable"⟩))⟩
        | _ => ⟨credEnvOk, "u2", .error (.axiosErr "e3" none none)⟩)).result =
      .error (.plainErr "Session creation failed: Network error") ∧
      (newSession .direct (some "agent-1") none (fun n =>
        match n with
        | 0 => ⟨credEnvOk, "u0", .error (.axiosErr "e1" none (some ⟨503, "Service Unavailable"⟩))⟩
        | 1 => ⟨credEnvOk, "u1", .error (.axiosErr "e2" none (some ⟨503, "Service Unavailable"⟩))⟩
        | _ => ⟨credEnvOk, "u2", .error (.axiosErr "e3" none none)⟩)).attempts = 3 ∧
      (newSession .direct (some "agent-1") none (fun n =>
        match n with
        | 0 => ⟨credEnvOk, "u0", .error (.axiosErr "e1" none (some ⟨503, "Service Unavailable"⟩))⟩
        | 1 => ⟨credEnvOk, "u1", .error (.axiosErr "e2" none (some ⟨503, "Service Unavailable"⟩))⟩
        | _ => ⟨credEnvOk, "u2", .error (.axiosErr "e3" none none)⟩)).delays =
      [1500, 3000]) :=
  newSession_5xx_retried_third_attempt_wins .direct (some "agent-1") none credEnvOk
    cred0 [.authPost authUrl0] "u0" "u1" "u2" 503 503 "Service Unavailable"
    "Service Unavailable" "e1" "e2" "e3" sessNew rfl rfl (by decide) (by decide) rfl

/-- Claim C3, refuted at a concrete input: with credentials resolving but no
agent id argument and no configured default, newSession does NOT fail after a
single attempt. The configuration Error is a plain Error without an HTTP
status, so the retry guard does not fire: 3 attempts are made with backoff
delays 1500 ms and 3000 ms before the configuration error propagates. -/
theorem newSession_missing_agent_retried_counterexample :
    (newSession .direct none none (fun _ => attemptOk)).attempts = 3 ∧
    (newSession .direct none none (fun _ => attemptOk)).delays = [1500, 3000] ∧
    (newSession .direct none none (fun _ => attemptOk)).result =
      .error (.plainErr "No agent ID provided and no default agent configured") :=
  ⟨rfl, rfl, rfl⟩

/-- Claim C3 as amended: when no explicit agent id is given and no default
agent is configured (and credential resolution succeeds on every attempt),
newSession raises the missing-agent configuration Error on each attempt; the
error carries no HTTP status, so the retry policy retries it: 3 attempts are
made with delays 1500 ms and 3000 ms, and then the configuration error
propagates unchanged. -/
theorem newSession_missing_agent_config_error_after_retries (mode : AuthMode)
    (agentArg cfg : Option String) (envs : Nat → AttemptEnv)
    (hagent : jsFalsyStr (jsOrStr agentArg cfg) = true)
    (hcred : ∀ n, ∃ c calls, getCredentials mode ((envs n).credEnv) = (.ok c, calls)) :
    (newSession mode agentArg cfg envs).result =
      .error (.plainErr "No agent ID provided and no default agent configured") ∧
    (newSession mode agentArg cfg envs).attempts = 3 ∧
    (newSession mode agentArg cfg envs).delays = [1500, 3000] := by
  obtain ⟨c0, k0, h0⟩ := hcred 0
  obtain ⟨c1, k1, h1⟩ := hcred 1
  obtain ⟨c2, k2, h2⟩ := hcred 2
  have b0 := newSessionBody_noAgent mode agentArg cfg (envs 0) c0 k0 h0 hagent
  have b1 := newSessionBody_noAgent mode agentArg cfg (envs 1) c1 k1 h1 hagent
  have b2 := newSessionBody_noAgent mode agentArg cfg (envs 2) c2 k2 h2 hagent
  simp only [newSession, retryOperation, retryAux, b0, b1, b2,
    nonRetryableStatus_plain]
  norm_num

/-- Witness for the amended claim C3, in applink mode with a healthy broker. -/
theorem newSession_missing_agent_config_error_after_retries_witness :
    (newSession .applink none none (fun _ => attemptOk)).result =
      .error (.plainErr "No agent ID provided and no default agent configured") ∧
    (newSession .applink none none (fun _ => attemptOk)).attempts = 3 ∧
    (newSession .applink none none (fun _ => attemptOk)).delays = [1500, 3000] :=
  newSession_missing_agent_config_error_after_retries .applink none none
    (fun _ => attemptOk) rfl
    (fun _ => ⟨⟨"tok-2", "https://api.salesforce.com"⟩, [.brokerCall "jwt-conn"], rfl⟩)

/-- A concrete successful DELETE response. -/
def delOk : DeleteData := ⟨"del-ok"⟩

/-- endSession environment whose DELETE succeeds. -/
def endEnvDelOk : EndEnv := ⟨credEnvOk, fun _ => attemptOk, some "agent-cfg", .ok delOk⟩

/-- endSession environment whose DELETE fails with HTTP 500. -/
def endEnvDel500 : EndEnv := ⟨credEnvOk, fun _ => attemptOk, some "agent-cfg", .error err500⟩

/-- endSession environment whose DELETE fails with HTTP 404. -/
def endEnvDel404 : EndEnv := ⟨credEnvOk, fun _ => attemptOk, some "agent-cfg", .error err404⟩

/-- Claim C2, refuted at a concrete input: when the DELETE fails (HTTP 500),
endSession swallows the failure and returns null, but the session cache entry
is NOT purged (revalidateTag("session") runs only on the success path), and a
session resolution afterwards returns the stale cached session with zero
calls instead of creating a fresh remote session. -/
theorem endSession_failed_delete_keeps_cache_counterexample :
    (endSession .direct endEnvDel500 (some sess0)).result = .ok none ∧
    (endSession .direct endEnvDel500 (some sess0)).cacheAfter = some sess0 ∧
    getSession .direct none (some "agent-cfg") (fun _ => attemptOk)
      ((endSession .direct endEnvDel500 (some sess0)).cacheAfter) =
      (.ok sess0, some sess0, []) :=
  ⟨rfl, rfl, rfl⟩

/-- Claim C2 as amended: starting from a cached session, endSession purges the
session cache entry exactly when its try block (credential resolution, session
resolution and the DELETE) succeeds; on any failure the catch returns null
and leaves the cached session entry in place. -/
theorem endSession_purges_cache_only_on_success (mode : AuthMode) (env : EndEnv)
    (s0 : SessionResp) :
    ((endSessionTry mode env (some s0)).1.isOk = true →
      (endSession mode env (some s0)).cacheAfter = none) ∧
    ((endSessionTry mode env (some s0)).1.isOk = false →
      (endSession mode env (some s0)).cacheAfter = some s0) := by
  unfold endSession endSessionTry getSession
  rcases hc : getCredentials mode env.credEnv with ⟨cr, calls⟩
  cases cr with
  | error e => simp [Except.isOk, Except.toBool]
  | ok cred =>
    cases hd : env.deleteResult with
    | error e => simp [Except.isOk, Except.toBool]
    | ok d => simp [Except.isOk, Except.toBool]

/-- Witness for the amended claim C2: with a successful DELETE the cache
entry is purged; with a failed DELETE it survives. -/
theorem endSession_purges_cache_only_on_success_witness :
    (endSession .direct endEnvDelOk (some sess0)).cacheAfter = none ∧
    (endSession .direct endEnvDel500 (some sess0)).cacheAfter = some sess0 :=
  ⟨(endSession_purges_cache_only_on_success .direct endEnvDelOk sess0).1 rfl,
   (endSession_purges_cache_only_on_success .direct endEnvDel500 sess0).2 rfl⟩

/-- Claim C9: endSession never propagates a failure. Whatever the outcomes of
credential resolution, session resolution and the DELETE request, the result
is an ok value, and whenever the try block failed (for example a 404 on the
DELETE) the returned value is null. -/
theorem endSession_never_raises (mode : AuthMode) (env : EndEnv)
    (cache : Option SessionResp) :
    (endSession mode env cache).result.isOk = true ∧
    ((endSessionTry mode env cache).1.isOk = false →
      (endSession mode env cache).result = .ok none) := by
  unfold endSession
  rcases h : endSessionTry mode env cache with ⟨r, c, k⟩
  cases r <;> simp [Except.isOk, Except.toBool]

/-- Witness for claim C9: a DELETE that returns 404 completes without raising
and yields a null result. -/
theorem endSession_never_raises_witness :
    (endSession .direct endEnvDel404 (some sess0)).result = .ok none :=
  (endSession_never_raises .direct endEnvDel404 (some sess0)).2 rfl

/-- Claim C10: when no session is cached, endSession resolves a session via
getSession, which delegates to newSession: the trace is the credential calls
of endSession itself, then the credential calls of the newSession attempt,
then the session-creation POST, then the DELETE aimed at the freshly created
session id; the DELETE is issued whatever its outcome, never skipped because
no session existed. -/
theorem endSession_creates_then_deletes_fresh_session (mode : AuthMode)
    (credE credE0 : CredEnv) (c c2 : AuthCredentials)
    (ccalls ccalls2 : List HttpCall) (uuid aid s : String)
    (del : Except Err DeleteData)
    (hcred : getCredentials mode credE = (.ok c, ccalls))
    (hcred0 : getCredentials mode credE0 = (.ok c2, ccalls2))
    (haid : aid.isEmpty = false) (hs : s.isEmpty = false) :
    (endSession mode ⟨credE, fun _ => ⟨credE0, uuid, .ok ⟨some s⟩⟩, some aid, del⟩
        none).calls =
      ccalls ++ (ccalls2 ++ [.sessionPost (sessionPostUrl c2.apiInstanceUrl aid)]) ++
        [.sessionDelete (sessionDeleteUrl c.apiInstanceUrl s)] := by
  have hagent : jsFalsyStr (jsOrStr none (some aid)) = false := by
    simp [jsOrStr, jsFalsyStr, haid]
  have hb := newSessionBody_postOk mode none (some aid) credE0 c2 ccalls2 uuid
    ⟨some s⟩ hcred0 hagent (by simp [jsFalsyStr, hs])
  unfold endSession endSessionTry getSession
  simp only [hcred, newSession, retryOperation, retryAux, hb]
  cases del <;> simp [jsOrStr, jsFalsyStr, optStr, jsTemplate]

/-- Witness for claim C10: a cold cache, a healthy environment and a failing
DELETE still produce the create-then-delete trace. -/
theorem endSession_creates_then_deletes_fresh_session_witness :
    (endSession .direct
        ⟨credEnvOk, fun _ => ⟨credEnvOk, "u0", .ok ⟨some "sess-new"⟩⟩, some "agent-cfg",
          .error err500⟩ none).calls =
      [.authPost authUrl0] ++
        ([.authPost authUrl0] ++
          [.sessionPost (sessionPostUrl "https://inst.example" "agent-cfg")]) ++
        [.sessionDelete (sessionDeleteUrl "https://inst.example" "sess-new")] :=
  endSession_creates_then_deletes_fresh_session .direct credEnvOk credEnvOk cred0
    cred0 [.authPost authUrl0] [.authPost authUrl0] "u0" "agent-cfg" "sess-new"
    (.error err500) rfl rfl rfl rfl

/-- A send environment in which everything succeeds. -/
def sendEnvOk : SendEnv := ⟨credEnvOk, fun _ => attemptOk, some "agent-cfg", .ok ⟨"stream-1"⟩⟩

/-- A plain Error passes through the dispatch catch unchanged. -/
theorem streamCatch_plain (m : String) : streamCatch (.plainErr m) = .plainErr m := rfl

/-- getToken issues exactly one POST to the auth endpoint, whatever happens. -/
theorem getToken_calls (u : String) (r : Except Err TokenResponse) :
    (getToken u r).2 = [.authPost u] := by
  cases r with
  | error e => rfl
  | ok d =>
    unfold getToken
    cases h : (jsFalsyStr d.access_token || jsFalsyStr d.api_instance_url) <;> simp [h]

/-- getTokenFromAppLink issues exactly one broker lookup, whatever happens. -/
theorem getTokenFromAppLink_calls (name : String) (a : Except Err AppLinkAuth) :
    (getTokenFromAppLink name a).2 = [.brokerCall name] := by
  cases a with
  | error e => rfl
  | ok d =>
    unfold getTokenFromAppLink
    cases h : jsFalsyStr d.accessToken <;> simp [h]

/-- Every credential resolution performs exactly one call. -/
theorem getCredentials_calls (mode : AuthMode) (env : CredEnv) :
    ∃ cl, (getCredentials mode env).2 = [cl] := by
  cases mode with
  | direct => exact ⟨.authPost env.authUrl, getToken_calls env.authUrl env.tokenResp⟩
  | applink =>
    exact ⟨.brokerCall env.connectionName,
      getTokenFromAppLink_calls env.connectionName env.appLinkAuth⟩

/-- Once validation passes, sendStreamingMessage always performs at least the
credential resolution call, so its call list is never empty. -/
theorem sendStreamingMessage_calls_nonempty (text : String) (seq : JSNum)
    (agentArg : Option String) (mode : AuthMode) (env : SendEnv)
    (cache : Option SessionResp) (htext : trimmedEmpty text = false)
    (hseq : jsNumNeg seq = false) :
    (sendStreamingMessage text seq agentArg mode env cache).2 ≠ [] := by
  obtain ⟨cl, hcl⟩ := getCredentials_calls mode env.credEnv
  unfold sendStreamingMessage
  simp only [htext, hseq, Bool.false_eq_true, if_false]
  rcases hgc : getCredentials mode env.credEnv with ⟨cr, calls⟩
  rw [hgc] at hcl
  subst hcl
  cases cr with
  | error e => simp
  | ok cred =>
    rcases hgs : getSession mode agentArg env.configAgentId env.sessionEnvs cache
      with ⟨sr, c2, calls2⟩
    cases sr with
    | error e => simp
    | ok s =>
      cases hst : env.streamResult <;> simp

/-- Claim C5: a text that is empty or whitespace-only after trimming, or a
negative sequenceId, makes sendStreamingMessage fail inside validation with
the exact validation Error (surfaced verbatim through the catch, which
re-throws non-axios errors unchanged) and with zero network, broker or
session calls; there is no retry wrapper around the dispatcher. -/
theorem sendStreamingMessage_validation_blocks_network (text : String)
    (seq : JSNum) (agentArg : Option String) (mode : AuthMode) (env : SendEnv)
    (cache : Option SessionResp) :
    (trimmedEmpty text = true →
      sendStreamingMessage text seq agentArg mode env cache =
        (.error (.plainErr "Message text cannot be empty"), [])) ∧
    (trimmedEmpty text = false → jsNumNeg seq = true →
      sendStreamingMessage text seq agentArg mode env cache =
        (.error (.plainErr "Invalid sequence ID"), [])) := by
  constructor
  · intro h
    simp [sendStreamingMessage, h, streamCatch]
  · intro h1 h2
    simp [sendStreamingMessage, h1, h2, streamCatch]

/-- Witness for claim C5: a whitespace-only text and a sequenceId of -1, in
an environment where every downstream interaction would succeed. -/
theorem sendStreamingMessage_validation_blocks_network_witness :
    sendStreamingMessage " " (.num 1) none .direct sendEnvOk none =
      (.error (.plainErr "Message text cannot be empty"), []) ∧
    sendStreamingMessage "Hello" (.num (-1)) none .direct sendEnvOk none =
      (.error (.plainErr "Invalid sequence ID"), []) :=
  ⟨(sendStreamingMessage_validation_blocks_network " " (.num 1) none .direct
      sendEnvOk none).1 (by decide),
   (sendStreamingMessage_validation_blocks_network "Hello" (.num (-1)) none .direct
      sendEnvOk none).2 (by decide) (by decide)⟩

/-- Claim C7, refuted at concrete inputs: the validation only checks
typeof sequenceId and sequenceId < 0, so the non-integer 3/2 and NaN (whose
comparison with 0 is false) both pass validation, and the message is sent:
the streaming POST is issued and the stream is returned. -/
theorem sendStreamingMessage_noninteger_passes_counterexample :
    sendStreamingMessage "Hello" (.num (3 / 2)) none .direct sendEnvOk (some sess0) =
      (.ok ⟨"stream-1"⟩,
        [.authPost authUrl0,
         .streamPost (streamPostUrl "https://inst.example" "sess-0")]) ∧
    sendStreamingMessage "Hello" .nan none .direct sendEnvOk (some sess0) =
      (.ok ⟨"stream-1"⟩,
        [.authPost authUrl0,
         .streamPost (streamPostUrl "https://inst.example" "sess-0")]) := by
  have h32 : jsNumNeg (.num (3 / 2)) = false := by
    simp only [jsNumNeg]
    norm_num
  constructor
  · unfold sendStreamingMessage
    rw [h32]
    rfl
  · rfl

/-- Claim C7 as amended: for a text that survives trimming, sendStreamingMessage
fails validation with the invalid-sequence Error and zero calls exactly when
sequenceId is a number below zero; every other sequenceId (including
non-integers such as 1.5 and NaN) passes validation and reaches the network. -/
theorem sendStreamingMessage_rejects_only_negative_numbers (text : String)
    (seq : JSNum) (agentArg : Option String) (mode : AuthMode) (env : SendEnv)
    (cache : Option SessionResp) (htext : trimmedEmpty text = false) :
    (sendStreamingMessage text seq agentArg mode env cache =
        (.error (.plainErr "Invalid sequence ID"), [])) ↔ jsNumNeg seq = true := by
  constructor
  · intro h
    by_contra hneg
    have hseq : jsNumNeg seq = false := by
      cases hq : jsNumNeg seq
      · rfl
      · exact absurd hq hneg
    have hne := sendStreamingMessage_calls_nonempty text seq agentArg mode env
      cache htext hseq
    rw [h] at hne
    exact hne rfl
  · intro h
    simp [sendStreamingMessage, htext, h, streamCatch]

/-- Witness for the amended claim C7: a negative sequenceId is rejected with
zero calls. -/
theorem sendStreamingMessage_rejects_only_negative_numbers_witness :
    sendStreamingMessage "Hi" (.num (-2)) none .applink sendEnvOk none =
      (.error (.plainErr "Invalid sequence ID"), []) :=
  (sendStreamingMessage_rejects_only_negative_numbers "Hi" (.num (-2)) none
    .applink sendEnvOk none (by decide)).mpr (by decide)

/-- Claim C6: delegated (applink) credential resolution returns the fixed
base URL api.salesforce.com whatever domainUrl the broker returned; direct
resolution returns the api_instance_url of the OAuth response; and every
subsequent call is addressed to the apiInstanceUrl of whichever credentials
were resolved: the session-creation POST of the retried body, the streaming
message POST of the dispatcher (whatever the outcome of the POST itself), and
the session DELETE of the teardown (whatever the outcome of the DELETE). -/
theorem credential_base_urls :
    (∀ (name : String) (a : AppLinkAuth), jsFalsyStr a.accessToken = false →
      (getTokenFromAppLink name (.ok a)).1 =
        .ok ⟨optStr a.accessToken, "https://api.salesforce.com"⟩) ∧
    (∀ (url : String) (tr : TokenResponse),
      jsFalsyStr tr.access_token = false → jsFalsyStr tr.api_instance_url = false →
      (getToken url (.ok tr)).1 =
        .ok ⟨optStr tr.access_token, optStr tr.api_instance_url⟩) ∧
    (∀ (mode : AuthMode) (credE : CredEnv) (cred : AuthCredentials)
      (ccalls : List HttpCall) (agentArg cfg : Option String) (uuid : String)
      (post : Except Err SessionResp),
      getCredentials mode credE = (.ok cred, ccalls) →
      jsFalsyStr (jsOrStr agentArg cfg) = false →
      (newSessionBody mode agentArg cfg ⟨credE, uuid, post⟩).2 =
        ccalls ++ [.sessionPost
          (sessionPostUrl cred.apiInstanceUrl (optStr (jsOrStr agentArg cfg)))]) ∧
    (∀ (text : String) (seq : JSNum) (agentArg : Option String) (mode : AuthMode)
      (env : SendEnv) (cred : AuthCredentials) (ccalls : List HttpCall)
      (s : SessionResp),
      trimmedEmpty text = false → jsNumNeg seq = false →
      getCredentials mode env.credEnv = (.ok cred, ccalls) →
      (sendStreamingMessage text seq agentArg mode env (some s)).2 =
        ccalls ++ [.streamPost
          (streamPostUrl cred.apiInstanceUrl (jsTemplate s.sessionId))]) ∧
    (∀ (mode : AuthMode) (env : EndEnv) (cred : AuthCredentials)
      (ccalls : List HttpCall) (s : SessionResp),
      getCredentials mode env.credEnv = (.ok cred, ccalls) →
      (endSessionTry mode env (some s)).2.2 =
        ccalls ++ [.sessionDelete
          (sessionDeleteUrl cred.apiInstanceUrl (jsTemplate s.sessionId))]) := by
  refine ⟨?_, ?_, ?_, ?_, ?_⟩
  · intro name a ha
    simp [getTokenFromAppLink, ha]
  · intro url tr h1 h2
    simp [getToken, h1, h2]
  · intro mode credE cred ccalls agentArg cfg uuid post hcred hagent
    cases post with
    | error e => simp [newSessionBody, hcred, hagent]
    | ok data =>
      by_cases hd : jsFalsyStr data.sessionId = true
      · simp [newSessionBody, hcred, hagent, hd]
      · have hd2 : jsFalsyStr data.sessionId = false := by
          cases hq : jsFalsyStr data.sessionId
          · rfl
          · exact absurd hq hd
        simp [newSessionBody, hcred, hagent, hd2]
  · intro text seq agentArg mode env cred ccalls s htext hseq hcred
    unfold sendStreamingMessage getSession
    cases hst : env.streamResult <;> simp [htext, hseq, hcred]
  · intro mode env cred ccalls s hcred
    unfold endSessionTry getSession
    cases hd : env.deleteResult <;> simp [hcred]

/-- Witness for claim C6: the broker returns a tenant domain URL and it is
ignored in favour of the canonical host; direct mode keeps the instance URL
of the OAuth response; and the session POST, the streaming message POST and
the session DELETE all go to the resolved base URL. -/
theorem credential_base_urls_witness :
    (getTokenFromAppLink "jwt-conn" (.ok ⟨some "tok-2", some "https://dom.example"⟩)).1 =
      .ok ⟨"tok-2", "https://api.salesforce.com"⟩ ∧
    (getToken authUrl0 (.ok tokenOk)).1 = .ok ⟨"tok-1", "https://inst.example"⟩ ∧
    (newSessionBody .direct (some "agent-1") none attemptOk).2 =
      [.authPost authUrl0,
       .sessionPost (sessionPostUrl "https://inst.example" "agent-1")] ∧
    (sendStreamingMessage "Hello" (.num 1) none .direct sendEnvOk (some sess0)).2 =
      [.authPost authUrl0,
       .streamPost (streamPostUrl "https://inst.example" "sess-0")] ∧
    (endSessionTry .direct endEnvDelOk (some sess0)).2.2 =
      [.authPost authUrl0,
       .sessionDelete (sessionDeleteUrl "https://inst.example" "sess-0")] :=
  ⟨credential_base_urls.1 "jwt-conn" ⟨some "tok-2", some "https://dom.example"⟩ rfl,
   credential_base_urls.2.1 authUrl0 tokenOk rfl rfl,
   credential_base_urls.2.2.1 .direct credEnvOk cred0 [.authPost authUrl0]
     (some "agent-1") none "uuid-0" (.ok sessNew) rfl rfl,
   credential_base_urls.2.2.2.1 "Hello" (.num 1) none .direct sendEnvOk cred0
     [.authPost authUrl0] sess0 (by decide) (by decide) rfl,
   credential_base_urls.2.2.2.2 .direct endEnvDelOk cred0 [.authPost authUrl0]
     sess0 rfl⟩

/-- A concrete OAuth response missing the access token. -/
def tokenMissing : TokenResponse := ⟨none, some "https://inst.example"⟩

/-- A credential environment whose direct-mode token response misses the
access token. -/
def credEnvMissingTok : CredEnv :=
  ⟨authUrl0, .ok tokenMissing, "jwt-conn", .ok ⟨some "tok-2", some "https://dom.example"⟩⟩

/-- Claim C8: a direct-mode OAuth response missing access_token or
api_instance_url makes getToken fail with the authentication-classified
message (the locally thrown invalid-response parse Error is swallowed by the
providers own catch and replaced), after exactly one auth call (the provider
itself never retries); and newSession run over such a provider surfaces the
same authentication-classified error, not a raw parse error. -/
theorem getToken_missing_fields_auth_classified (url : String) (tr : TokenResponse)
    (hmiss : jsFalsyStr tr.access_token = true ∨ jsFalsyStr tr.api_instance_url = true) :
    getToken url (.ok tr) =
      (.error (.plainErr "Authentication failed: Unable to connect to Salesforce"),
        [.authPost url]) ∧
    (∀ (credE : CredEnv) (uuid : String) (post : Except Err SessionResp)
      (agentArg cfg : Option String),
      credE.authUrl = url → credE.tokenResp = .ok tr →
      (newSession .direct agentArg cfg (fun _ => ⟨credE, uuid, post⟩)).result =
        .error (.plainErr "Authentication failed: Unable to connect to Salesforce")) := by
  have htok : getToken url (.ok tr) =
      (.error (.plainErr "Authentication failed: Unable to connect to Salesforce"),
        [.authPost url]) := by
    rcases hmiss with h | h <;> simp [getToken, h, authCatch]
  refine ⟨htok, ?_⟩
  intro credE uuid post agentArg cfg h1 h2
  have hgc : getCredentials .direct credE =
      (.error (.plainErr "Authentication failed: Unable to connect to Salesforce"),
        [.authPost url]) := by
    simp [getCredentials, h1, h2, htok]
  have b := newSessionBody_credErr .direct agentArg cfg credE
    (.plainErr "Authentication failed: Unable to connect to Salesforce")
    [.authPost url] uuid post hgc
  simp only [newSession, retryOperation, retryAux, b, sessionCatch_plain,
    nonRetryableStatus_plain]
  simp

/-- Witness for claim C8: a token response without access_token. -/
theorem getToken_missing_fields_auth_classified_witness :
    getToken authUrl0 (.ok tokenMissing) =
      (.error (.plainErr "Authentication failed: Unable to connect to Salesforce"),
        [.authPost authUrl0]) ∧
    (newSession .direct (some "agent-1") none
        (fun _ => ⟨credEnvMissingTok, "u0", .ok sessNew⟩)).result =
      .error (.plainErr "Authentication failed: Unable to connect to Salesforce") :=
  ⟨(getToken_missing_fields_auth_classified authUrl0 tokenMissing (Or.inl rfl)).1,
   (getToken_missing_fields_auth_classified authUrl0 tokenMissing (Or.inl rfl)).2
     credEnvMissingTok "u0" (.ok sessNew) (some "agent-1") none rfl rfl⟩

end Agentforce
